import Mathlib

/-!
Verification development for the logistics optimization coordinator
(`logistic.py`) and its monitoring thread (`demo.py`).

Shallow embedding conventions:
* Timestamps and wall-clock instants are modelled as `Int` seconds.
  Python `timedelta.seconds` (the sub-day seconds component of a
  normalized timedelta) becomes `timedelta_seconds`, i.e. `· % 86400`
  with Python's floor-style nonnegative remainder, which `Int.emod`
  matches for the positive modulus 86400.
* Coordinates (`(lat, lng)` float pairs) are modelled as `Rat × Rat`;
  the code only constructs and passes them along, never does float
  arithmetic on them, so `Rat` is a faithful carrier of the literals.
* One loop iteration of `LogisticsOptimizer.realtime_optimization`
  becomes the pure step function `tick`; the nondeterministic inputs of
  a tick (the clock sample, whether `DataStream.preprocess` raises,
  what the providers return, whether `has_event` fired and which event
  `get_event` produced) are gathered in a `TickInput` record.
  `print` calls are observability only (no state change) and are
  modelled, where a claim needs them, as returned log strings.
* Route descriptor strings are modelled by the inductive `Route`:
  `Route.numbered i` stands for the Python string `f"路线{i}"` and
  `Route.reroute loc` for `f"调整路线@{loc}"`; both renderings are
  injective in their data, so nothing is lost.
-/

namespace Logistics

/-- Coordinates `(lat, lng)`. -/
abbrev Coord := Rat × Rat

/-- `timedelta(minutes=m)` in seconds. -/
def minutes (m : Int) : Int := m * 60

/-- `timedelta(hours=h)` in seconds. -/
def hours (h : Int) : Int := h * 3600

/-- The `.seconds` attribute of a Python `timedelta` built from a
difference of `d` whole seconds: the sub-day component `d mod 86400`,
normalized to `[0, 86400)` exactly as Python does. -/
def timedelta_seconds (d : Int) : Int := d % 86400

/-- `DeliveryDemand` from `logistic.py`. -/
structure DeliveryDemand where
  type : String
  quantity : Int
  location : Coord
  time_window : Int × Int
  deriving Repr, DecidableEq

/-- `VehicleState` from `logistic.py`. -/
structure VehicleState where
  id : Int
  position : Coord
  capacity : Int
  current_load : Int
  route : List Coord
  deriving Repr, DecidableEq

/-- `FactoryProduction` from `logistic.py`. -/
structure FactoryProduction where
  type : String
  amount : Int
  timestamp : Int
  deriving Repr, DecidableEq

/-- The event dict returned by `DataStream.get_event`. -/
structure DisruptionEvent where
  type : String
  location : Coord
  deriving Repr, DecidableEq

/-- A route descriptor string of a `Solution`. -/
inductive Route where
  /-- `f"路线{i}"`, produced by `_hourly_reoptimization`. -/
  | numbered (i : Nat)
  /-- `f"调整路线@{location}"`, produced by the event-replanning branch. -/
  | reroute (location : Coord)
  deriving Repr, DecidableEq

/-- `Solution` from `logistic.py`. -/
structure Solution where
  routes : List Route
  deriving Repr, DecidableEq

/-- The mutable state of a `LogisticsOptimizer` that the coordinator
loop reads and writes (`factory_location` is set once in `__init__`). -/
structure OptimizerState where
  factory_location : Coord
  last_optimization : Int
  current_solution : Solution
  deriving Repr, DecidableEq

/-- The per-tick environment: the clock sample, the outcome of
`DataStream.preprocess` (`Except.error` when a provider raised), the
provider data consumed by a scheduled reoptimization, and the sampled
disruption event (`none` when `has_event` returned `False`). -/
structure TickInput where
  now : Int
  refresh : Except String Unit
  pending_orders : List DeliveryDemand
  production : List FactoryProduction
  event : Option DisruptionEvent

/-- `LogisticsOptimizer._update_data`: `preprocess`'s result is
discarded, any exception is caught and logged; the optimizer state is
untouched either way.  Returns the (unchanged) state and the log line
printed by the `except` branch, if any. -/
def update_data (s : OptimizerState) (refresh : Except String Unit) :
    OptimizerState × Option String :=
  (s, match refresh with
      | Except.ok _ => none
      | Except.error e => some ("数据更新异常: " ++ e))

/-- `LogisticsOptimizer._hourly_trigger`:
`(current - self.last_optimization).seconds >= 3600`. -/
def hourly_trigger (current last_optimization : Int) : Bool :=
  timedelta_seconds (current - last_optimization) ≥ 3600

/-- `LogisticsOptimizer._create_demand`. -/
def create_demand (factory_location : Coord) (product : FactoryProduction)
    (base_time : Int) : DeliveryDemand :=
  ⟨product.type, product.amount, factory_location,
    (base_time + (hours 1 + minutes 15), base_time + hours 4)⟩

/-- `LogisticsOptimizer._generate_demands`: pending orders spliced
verbatim, then one synthesized demand per production batch whose
timestamp is `> current_time - timedelta(minutes=55)`. -/
def generate_demands (factory_location : Coord)
    (pending_orders : List DeliveryDemand)
    (production : List FactoryProduction) (current_time : Int) :
    List DeliveryDemand :=
  pending_orders ++
    (production.filter
        (fun p => p.timestamp > current_time - minutes 55)).map
      (fun p => create_demand factory_location p current_time)

/-- `LogisticsOptimizer._hourly_reoptimization`: recompute the demand
set and install `Solution([f"路线{i}" for i in range(len(demands)//3 + 1)])`. -/
def hourly_reoptimization (s : OptimizerState)
    (pending_orders : List DeliveryDemand)
    (production : List FactoryProduction) (now : Int) : OptimizerState :=
  let updated_demands :=
    generate_demands s.factory_location pending_orders production now
  ⟨s.factory_location, s.last_optimization,
    ⟨(List.range (updated_demands.length / 3 + 1)).map Route.numbered⟩⟩

/-- One iteration of the `while True` body of
`LogisticsOptimizer.realtime_optimization`:
1. `_update_data()` (state unchanged, §C8);
2. `if self._hourly_trigger(): _hourly_reoptimization(); last_optimization = now`;
3. `if self.data_stream.has_event(): current_solution = Solution([reroute])`
   — a separate `if`, not an `elif`;
4. `_dispatch_commands()` prints only; 5. `sleep(1)`. -/
def tick (s : OptimizerState) (inp : TickInput) : OptimizerState :=
  let s1 := (update_data s inp.refresh).1
  let s2 :=
    if hourly_trigger inp.now s1.last_optimization then
      let s' := hourly_reoptimization s1 inp.pending_orders inp.production inp.now
      ⟨s'.factory_location, inp.now, s'.current_solution⟩
    else s1
  match inp.event with
  | some e => ⟨s2.factory_location, s2.last_optimization, ⟨[Route.reroute e.location]⟩⟩
  | none => s2

/-- The sequence of optimizer states visited while consuming a list of
tick inputs, starting from (and including) `s0`. -/
def trace (s0 : OptimizerState) : List TickInput → List OptimizerState
  | [] => [s0]
  | i :: is => s0 :: trace (tick s0 i) is

/-- `timesOk t inps`: the tick clock samples in `inps` are
non-decreasing and the first is at least `t` (the wall clock never runs
backwards across the run). -/
def timesOk : Int → List TickInput → Bool
  | _, [] => true
  | t, i :: is => decide (t ≤ i.now) && timesOk i.now is

/-! ## The monitoring thread of `demo.py` -/

/-- A vehicle entry of the shared dashboard state, as built by
`optimization_thread` (`{"id", "position", "load", "capacity"}`). -/
structure VehicleView where
  id : Int
  position : Coord
  load : Int
  capacity : Int
  deriving Repr, DecidableEq

/-- A production entry of the shared dashboard state
(`{"type", "amount"}`). -/
structure ProductionView where
  type : String
  amount : Int
  deriving Repr, DecidableEq

/-- An event entry of the shared dashboard state
(`{"type", "time", "location"}`). -/
structure EventView where
  type : String
  time : Int
  location : Coord
  deriving Repr, DecidableEq

/-- The `st.session_state` fields touched by `optimization_thread`. -/
structure MonitorState where
  running : Bool
  last_update : Int
  vehicles : List VehicleView
  production : List ProductionView
  events : List EventView
  deriving Repr, DecidableEq

/-- The instance attributes of a `DataStream` object: exactly those
assigned in `DataStream.__init__` in `logistic.py`.  Neither `lock` nor
`events` is assigned anywhere in the repository. -/
def dataStreamAttrs : List String :=
  ["orders", "vehicles", "traffic", "weather", "factory"]

/-- Python attribute lookup on the `DataStream` object: `AttributeError`
for an attribute the object does not have. -/
def getattr_ds (a : String) : Except String Unit :=
  if a ∈ dataStreamAttrs then Except.ok ()
  else Except.error ("AttributeError: " ++ a)

/-- One iteration of the `while st.session_state.running` body of
`optimization_thread` in `demo.py`: `_update_data()` (optimizer state
untouched), then — once the timedelta's seconds component since
`last_update` is at least 1 — the publish block
`with st.session_state.optimizer.data_stream.lock: ...`.  The attribute
lookups are modelled by `getattr_ds`; a raise is caught by the outer
`except`, which logs `优化进程错误` and clears `running`.  The
`Except.ok` branches model the writes the block would perform were the
lookups to succeed.  Returns the new monitor state and the logged
error, if any. -/
def optimization_thread_body (m : MonitorState) (now : Int)
    (vs : List VehicleState) (prod : List FactoryProduction) :
    MonitorState × Option String :=
  if timedelta_seconds (now - m.last_update) ≥ 1 then
    match getattr_ds "lock" with
    | Except.error e =>
        (⟨false, m.last_update, m.vehicles, m.production, m.events⟩,
          some ("优化进程错误: " ++ e))
    | Except.ok _ =>
      let vehicles := vs.map
        (fun v => (⟨v.id, v.position, v.current_load, v.capacity⟩ : VehicleView))
      let production := prod.map (fun p => (⟨p.type, p.amount⟩ : ProductionView))
      match getattr_ds "events" with
      | Except.error e =>
          (⟨false, m.last_update, vehicles, production, m.events⟩,
            some ("优化进程错误: " ++ e))
      | Except.ok _ => (⟨m.running, now, vehicles, production, m.events⟩, none)
  else (m, none)

/-! ## Basic facts about `tick` -/

/-- The optimizer state surviving `_update_data` is the input state. -/
theorem update_data_fst (s : OptimizerState) (r : Except String Unit) :
    (update_data s r).1 = s := rfl

/-- What a tick does to `last_optimization`: set to the tick's clock
sample when the hourly trigger fires, untouched otherwise. -/
theorem tick_last_optimization (s : OptimizerState) (i : TickInput) :
    (tick s i).last_optimization =
      if hourly_trigger i.now s.last_optimization then i.now
      else s.last_optimization := by
  unfold tick
  rw [update_data_fst]
  cases i.event <;> dsimp only <;> split <;> rfl

/-! ## C4: the 55-minute lookback window -/

/-- Claim C4: a production batch is turned into a demand exactly when
its timestamp is strictly greater than `T - 55` minutes; in particular
a batch stamped `T - 50min` is included and one stamped `T - 60min` is
excluded. -/
theorem generate_demands_window (fl : Coord) (T : Int)
    (pending : List DeliveryDemand) (production : List FactoryProduction)
    (p50 p60 : FactoryProduction)
    (h50 : p50.timestamp = T - 50 * 60) (h60 : p60.timestamp = T - 60 * 60) :
    generate_demands fl pending production T =
      pending ++
        (production.filter (fun p => decide (T - 55 * 60 < p.timestamp))).map
          (fun p => create_demand fl p T) ∧
    generate_demands fl [] [p50] T = [create_demand fl p50 T] ∧
    generate_demands fl [] [p60] T = [] := by
  refine ⟨rfl, ?_, ?_⟩
  · have h : T - minutes 55 < p50.timestamp := by
      rw [h50]; unfold minutes; omega
    simp [generate_demands, h]
  · have h : ¬ (T - minutes 55 < p60.timestamp) := by
      rw [h60]; unfold minutes; omega
    simp [generate_demands, h]

def c4_fl : Coord := (312304/10000, 1214737/10000)
def c4_p50 : FactoryProduction := ⟨"产品A", 100, 10000 - 50 * 60⟩
def c4_p60 : FactoryProduction := ⟨"产品B", 50, 10000 - 60 * 60⟩

/-- Witness for C4 at `T = 10000` with concrete batches. -/
theorem generate_demands_window_witness :
    c4_p50.timestamp = 10000 - 50 * 60 ∧ c4_p60.timestamp = 10000 - 60 * 60 ∧
    (generate_demands c4_fl [] [c4_p50, c4_p60] 10000 =
        [] ++
          (([c4_p50, c4_p60].filter
              (fun p => decide ((10000 : Int) - 55 * 60 < p.timestamp))).map
            (fun p => create_demand c4_fl p 10000)) ∧
      generate_demands c4_fl [] [c4_p50] 10000 = [create_demand c4_fl c4_p50 10000] ∧
      generate_demands c4_fl [] [c4_p60] 10000 = []) :=
  ⟨rfl, rfl,
    generate_demands_window c4_fl 10000 [] [c4_p50, c4_p60] c4_p50 c4_p60 rfl rfl⟩

/-! ## C5: pending orders first, both groups in provider order -/

/-- Claim C5: the Demand Composer's output is the pending orders,
verbatim and first, followed by the synthesized demands; each group
keeps the order in which its provider returned the items (the
synthesized group is the order-preserving filter of the production list
mapped through `create_demand`). -/
theorem generate_demands_order (fl : Coord)
    (pending : List DeliveryDemand) (production : List FactoryProduction)
    (T : Int) :
    (generate_demands fl pending production T).take pending.length = pending ∧
    (generate_demands fl pending production T).drop pending.length =
      (production.filter (fun p => decide (T - minutes 55 < p.timestamp))).map
        (fun p => create_demand fl p T) := by
  unfold generate_demands
  exact ⟨List.take_left pending _, List.drop_left pending _⟩

/-! ## C6: shape of a synthesized demand -/

/-- Claim C6: a demand synthesized from a batch at time `now` carries
the batch's amount as quantity, the configured factory location, and
the delivery window `(now + 75min, now + 4h)`. -/
theorem create_demand_fields (fl : Coord) (p : FactoryProduction) (now : Int) :
    (create_demand fl p now).quantity = p.amount ∧
    (create_demand fl p now).location = fl ∧
    (create_demand fl p now).time_window = (now + 75 * 60, now + 4 * 3600) := by
  refine ⟨rfl, rfl, ?_⟩
  unfold create_demand hours minutes
  norm_num

/-! ## C7: event replanning installs exactly one reroute route -/

/-- Claim C7: on any tick whose sampled event is `some e`, the tick
leaves the Solution with exactly one route, the reroute directive at
`e.location`, whatever the prior Solution held and whether or not the
scheduled trigger also fired. -/
theorem tick_event_installs_single_route (s : OptimizerState) (now : Int)
    (r : Except String Unit) (pending : List DeliveryDemand)
    (production : List FactoryProduction) (e : DisruptionEvent) :
    (tick s ⟨now, r, pending, production, some e⟩).current_solution.routes =
      [Route.reroute e.location] := rfl

/-! ## C8: provider failure is contained -/

/-- Claim C8: a provider exception during the refresh is caught inside
`_update_data` and logged; the optimizer's state is unchanged by the
failed refresh and the rest of the tick proceeds exactly as it would
have after a successful refresh. -/
theorem provider_failure_contained (s : OptimizerState) (msg : String)
    (now : Int) (pending : List DeliveryDemand)
    (production : List FactoryProduction) (ev : Option DisruptionEvent) :
    (update_data s (Except.error msg)).1 = s ∧
    (update_data s (Except.error msg)).2 = some ("数据更新异常: " ++ msg) ∧
    ∀ r : Except String Unit,
      tick s ⟨now, r, pending, production, ev⟩ =
        tick s ⟨now, Except.ok (), pending, production, ev⟩ :=
  ⟨rfl, rfl, fun _ => rfl⟩

/-! ## C10: route count after a scheduled reoptimization -/

/-- Claim C10: a scheduled reoptimization installs a Solution with
exactly `len(demands) / 3 + 1` routes, hence never an empty one, even
when the composed demand list is empty. -/
theorem hourly_reoptimization_route_count (s : OptimizerState)
    (pending : List DeliveryDemand) (production : List FactoryProduction)
    (now : Int) :
    (hourly_reoptimization s pending production now).current_solution.routes.length =
      (generate_demands s.factory_location pending production now).length / 3 + 1 ∧
    (hourly_reoptimization s pending production now).current_solution.routes ≠ [] := by
  constructor
  · simp [hourly_reoptimization]
  · simp [hourly_reoptimization]

/-! ## C1: the two replanning transitions are independent ifs -/

def c1State : OptimizerState := ⟨(0, 0), 0, ⟨[]⟩⟩
def c1Event : DisruptionEvent := ⟨"traffic_jam", (31.25, 121.5)⟩
def c1Input : TickInput := ⟨3600, Except.ok (), [], [], some c1Event⟩
def c1InputNoEvent : TickInput := ⟨3600, Except.ok (), [], [], none⟩

/-- Counterexample to claim C1 as stated: on a concrete tick where the
hourly trigger fires and an event is also detected, the event-replanning
Solution replacement executes too — the final Solution is the reroute
directive, whereas the same tick without the event would have ended with
the scheduled Solution. -/
theorem scheduled_and_event_same_tick :
    hourly_trigger c1Input.now c1State.last_optimization = true ∧
    (tick c1State c1Input).current_solution = ⟨[Route.reroute (31.25, 121.5)]⟩ ∧
    (tick c1State c1InputNoEvent).current_solution = ⟨[Route.numbered 0]⟩ :=
  ⟨by decide, rfl, rfl⟩

/-- Claim C1 amended: the scheduled and event transitions are two
independent `if`s, not mutually exclusive ones; the scheduled trigger
does not suppress event replanning.  On a tick where the hourly trigger
fires and an event is detected, both execute: `last_optimization` is
reset to the tick's clock sample by the scheduled branch, and the event
branch then overwrites the freshly installed Solution with the single
reroute directive. -/
theorem scheduled_and_event_both_execute (s : OptimizerState) (now : Int)
    (r : Except String Unit) (pending : List DeliveryDemand)
    (production : List FactoryProduction) (e : DisruptionEvent)
    (h : hourly_trigger now s.last_optimization = true) :
    (tick s ⟨now, r, pending, production, some e⟩).last_optimization = now ∧
    (tick s ⟨now, r, pending, production, some e⟩).current_solution =
      ⟨[Route.reroute e.location]⟩ := by
  constructor
  · rw [tick_last_optimization]; simp [h]
  · rfl

/-- Witness for the amended C1 at a concrete both-transition tick. -/
theorem scheduled_and_event_both_execute_witness :
    hourly_trigger 3600 c1State.last_optimization = true ∧
    ((tick c1State ⟨3600, Except.ok (), [], [], some c1Event⟩).last_optimization = 3600 ∧
     (tick c1State ⟨3600, Except.ok (), [], [], some c1Event⟩).current_solution =
       ⟨[Route.reroute c1Event.location]⟩) :=
  ⟨by decide,
    scheduled_and_event_both_execute c1State 3600 (Except.ok ()) [] [] c1Event
      (by decide)⟩

/-! ## C2: the trigger compares `timedelta.seconds`, not total elapsed -/

def c2State : OptimizerState := ⟨(0, 0), 0, ⟨[]⟩⟩
def c2Input : TickInput := ⟨86400, Except.ok (), [], [], none⟩

/-- Claim C2 meets a code bug: `_hourly_trigger` compares
`timedelta.seconds` — the sub-day seconds component of the elapsed
timedelta — against 3600, so a tick exactly 24 hours after
`last_optimization` (elapsed 86400 s, well over the 3600 s threshold)
does NOT take the scheduled path: the trigger is false and the tick
leaves `last_optimization` unchanged, while a 3601-second gap does
fire. -/
theorem hourly_trigger_misses_full_day_gap :
    (3600 : Int) ≤ 86400 - 0 ∧
    hourly_trigger 86400 0 = false ∧
    hourly_trigger 3601 0 = true ∧
    (tick c2State c2Input).last_optimization = 0 :=
  ⟨by decide, by decide, by decide, rfl⟩

/-! ## C3: `last_optimization` is monotone along every run -/

theorem timesOk_mono {a b : Int} (h : b ≤ a) :
    ∀ is : List TickInput, timesOk a is = true → timesOk b is = true := by
  intro is
  cases is with
  | nil => intro _; rfl
  | cons i is =>
    simp only [timesOk, Bool.and_eq_true, decide_eq_true_eq]
    exact fun hp => ⟨le_trans h hp.1, hp.2⟩

theorem trace_map_head (s0 : OptimizerState) (is : List TickInput) :
    ((trace s0 is).map (fun s => s.last_optimization)).head? =
      some s0.last_optimization := by
  cases is <;> rfl

theorem tick_last_bounds (s : OptimizerState) (i : TickInput)
    (h : s.last_optimization ≤ i.now) :
    s.last_optimization ≤ (tick s i).last_optimization ∧
      (tick s i).last_optimization ≤ i.now := by
  rw [tick_last_optimization]
  split
  · exact ⟨h, le_refl _⟩
  · exact ⟨le_refl _, h⟩

/-- Claim C3: along any run whose clock samples never decrease,
`last_optimization` is non-decreasing, and a tick on which the hourly
trigger does not fire leaves it exactly unchanged. -/
theorem last_optimization_monotone (s0 : OptimizerState)
    (inps : List TickInput) (h : timesOk s0.last_optimization inps = true) :
    List.Chain' (· ≤ ·)
      ((trace s0 inps).map (fun s => s.last_optimization)) ∧
    ∀ (s : OptimizerState) (i : TickInput),
      hourly_trigger i.now s.last_optimization = false →
      (tick s i).last_optimization = s.last_optimization := by
  refine ⟨?_, ?_⟩
  · induction inps generalizing s0 with
    | nil => simp [trace]
    | cons i is ih =>
      simp only [timesOk, Bool.and_eq_true, decide_eq_true_eq] at h
      have hb := tick_last_bounds s0 i h.1
      have hrec := ih (tick s0 i) (timesOk_mono hb.2 is h.2)
      rw [trace, List.map_cons, List.chain'_cons']
      refine ⟨?_, hrec⟩
      intro b hmem
      rw [trace_map_head] at hmem
      rw [Option.mem_some_iff] at hmem
      rw [← hmem]
      exact hb.1
  · intro s i hfalse
    rw [tick_last_optimization]
    simp [hfalse]

def c3S0 : OptimizerState := ⟨(0, 0), 0, ⟨[]⟩⟩
def c3Inps : List TickInput :=
  [⟨5, Except.ok (), [], [], none⟩, ⟨3610, Except.ok (), [], [], none⟩]

/-- Witness for C3 on a concrete two-tick run (one quiet tick, one
scheduled-trigger tick). -/
theorem last_optimization_monotone_witness :
    timesOk c3S0.last_optimization c3Inps = true ∧
    (List.Chain' (· ≤ ·)
        ((trace c3S0 c3Inps).map (fun s => s.last_optimization)) ∧
      ∀ (s : OptimizerState) (i : TickInput),
        hourly_trigger i.now s.last_optimization = false →
        (tick s i).last_optimization = s.last_optimization) :=
  ⟨by decide, last_optimization_monotone c3S0 c3Inps (by decide)⟩

/-! ## C9: the publish path cannot acquire a lock that does not exist -/

/-- Claim C9 meets a code bug: the publish block of
`optimization_thread` opens with `with ....data_stream.lock`, but
`DataStream` defines no `lock` attribute, so every publish attempt
raises `AttributeError` before writing anything: no shared field
(`vehicles`, `production`, `events`, `last_update`) is updated, the
error is logged, and `running` is cleared, stopping the thread — no
publish ever completes, let alone atomically under a lock. -/
theorem publish_always_raises (m : MonitorState) (now : Int)
    (vs : List VehicleState) (prod : List FactoryProduction)
    (h : timedelta_seconds (now - m.last_update) ≥ 1) :
    ("lock" ∈ dataStreamAttrs) = False ∧
    (optimization_thread_body m now vs prod).1 =
      ⟨false, m.last_update, m.vehicles, m.production, m.events⟩ ∧
    (optimization_thread_body m now vs prod).2 =
      some ("优化进程错误: " ++ "AttributeError: " ++ "lock") := by
  have hlock : getattr_ds "lock" =
      Except.error ("AttributeError: " ++ "lock") := rfl
  unfold optimization_thread_body
  rw [if_pos h, hlock]
  exact ⟨eq_false (by decide), rfl, rfl⟩

def c9M : MonitorState := ⟨true, 0, [], [], []⟩

/-- Witness for C9 at a concrete first publish attempt. -/
theorem publish_always_raises_witness :
    timedelta_seconds (2 - c9M.last_update) ≥ 1 ∧
    (("lock" ∈ dataStreamAttrs) = False ∧
     (optimization_thread_body c9M 2 [] []).1 =
       ⟨false, c9M.last_update, c9M.vehicles, c9M.production, c9M.events⟩ ∧
     (optimization_thread_body c9M 2 [] []).2 =
       some ("优化进程错误: " ++ "AttributeError: " ++ "lock")) :=
  ⟨by decide, publish_always_raises c9M 2 [] [] (by decide)⟩

end Logistics
